import Mathlib

/-!
Shallow embedding of src/src/lib/source/mdapiPackage.ts
(salesforce-alm): the MdapiPackage manifest builder (addMember) and the
PackageInstallCommand install-orchestration state machine (identifier
validation, retry-budget computation, confirmation gates, payload
construction, creation, polling and result reporting).

Strings are modelled by Lean String, JS numbers used as counters by Nat,
nullable values by Option, thrown exceptions by Except, and remote /
console side effects by an explicit event trace (List Event).
-/

/-! ## MdapiPackage (manifest data structure) -/

/-- One element of Package.types: an object with a name and an optional
members array (the source creates the entry without members and only
then initializes members to an empty array). -/
structure PkgTypeEntry where
  name : String
  members : Option (List String)
  deriving Repr, DecidableEq

/-- The members array of an entry, treating a missing array as empty
(mirrors the localType.members initialization in addMember). -/
def membersOf (e : PkgTypeEntry) : List String :=
  e.members.getD []

/-- JavaScript String.prototype.trim: drop leading and trailing
whitespace.  Defined over the character list so that it computes by
kernel reduction. -/
def jsTrim (s : String) : String :=
  String.mk (((s.data.dropWhile Char.isWhitespace).reverse.dropWhile Char.isWhitespace).reverse)

/-- JavaScript String.prototype.toUpperCase over the character list. -/
def jsToUpper (s : String) : String :=
  String.mk (s.data.map Char.toUpper)

/-- JavaScript String.prototype.startsWith over the character lists. -/
def jsStartsWith (s pat : String) : Bool :=
  pat.data.isPrefixOf s.data

/-- names[0] of fullNameTrimmed.split(path.sep): the characters before
the first occurrence of the (single-character) platform path separator,
or the whole string when the separator does not occur. -/
def firstPathSegment (sep : Char) (s : String) : String :=
  String.mk (s.data.takeWhile (fun c => c ≠ sep))

/-- fullNameTrimmed.replace(/\\/g, '/'): every backslash character is
replaced by a forward slash. -/
def replaceBackslashes (s : String) : String :=
  String.mk (s.data.map (fun c => if c = '\\' then '/' else c))

/-- The normalization addMember applies to fullName before storing it:
trim, then for the three bundle types keep only the first path.sep
segment (names[0] of fullNameTrimmed.split(path.sep)), then for every
type other than Layout replace backslashes with forward slashes.
path.sep is the platform path separator, passed as a parameter. -/
def normalizeMemberName (sep : Char) (ty fullName : String) : String :=
  let t1 := jsTrim fullName
  let t2 :=
    if ty = "AuraDefinitionBundle" ∨ ty = "LightningComponentBundle" ∨ ty = "WaveTemplateBundle" then
      firstPathSegment sep t1
    else t1
  if ty ≠ "Layout" then replaceBackslashes t2 else t2

/-- In-place update of one found (or freshly created) type entry:
ensure the members array exists, then push the member only when it is
not already present (the duplicate check localType.members.find). -/
def addMemberEntry (member : String) (e : PkgTypeEntry) : PkgTypeEntry :=
  let ms := membersOf e
  if member ∈ ms then { e with members := some ms }
  else { e with members := some (ms ++ [member]) }

/-- types.find(elementType => elementType.name === type) followed by the
mutation: the first entry whose stored name strictly equals the raw type
argument is updated; when none matches, a new entry named type.trim()
is pushed at the end and then updated. -/
def updateFirstMatching (ty member : String) : List PkgTypeEntry → List PkgTypeEntry
  | [] => [addMemberEntry member { name := jsTrim ty, members := none }]
  | e :: rest =>
    if e.name = ty then addMemberEntry member e :: rest
    else e :: updateFirstMatching ty member rest

/-- MdapiPackage.addMember(fullName, type): validates the two string
arguments (almError keys fullNameIsRequired / metadataTypeIsRequired for
empty-after-trim input; the null case is excluded by the String type),
then inserts the normalized member into Package.types. -/
def addMember (sep : Char) (types : List PkgTypeEntry) (fullName ty : String) :
    Except String (List PkgTypeEntry) :=
  if (jsTrim fullName).length = 0 then Except.error "fullNameIsRequired"
  else if (jsTrim ty).length = 0 then Except.error "metadataTypeIsRequired"
  else Except.ok (updateFirstMatching ty (normalizeMemberName sep ty fullName) types)

/-- The three bundle metadata types given special first-segment handling
in addMember. -/
def bundleMetadataTypes : List String :=
  ["AuraDefinitionBundle", "LightningComponentBundle", "WaveTemplateBundle"]

/-- Invariant: every stored member of every type entry other than
Layout contains no backslash character. -/
def noBackslashes (types : List PkgTypeEntry) : Prop :=
  ∀ e ∈ types, e.name ≠ "Layout" → ∀ m ∈ membersOf e, '\\' ∉ m.data

/-! ## PackageInstallCommand: constants and lookup tables -/

def DEFAULT_POLL_INTERVAL_MILLIS : Nat := 5000

def REPLICATION_POLLING_INTERVAL_MILLIS : Nat := 10000

def DEFAULT_MAX_RETRIES : Nat := 0

def RETRY_MINUTES_IN_MILLIS : Nat := 60000

def DEFAULT_PUBLISH_WAIT_MIN : Nat := 0

/-- SECURITY_TYPE_MAP: Map with exactly the entries
AllUsers -> full and AdminsOnly -> none; Map.get of any other key is
undefined (modelled as Option.none). -/
def SECURITY_TYPE_MAP : String → Option String := fun key =>
  if key = "AllUsers" then some "full"
  else if key = "AdminsOnly" then some "none"
  else none

/-- UPGRADE_TYPE_MAP: Delete -> delete-only,
DeprecateOnly -> deprecate-only, Mixed -> mixed-mode. -/
def UPGRADE_TYPE_MAP : String → Option String := fun key =>
  if key = "Delete" then some "delete-only"
  else if key = "DeprecateOnly" then some "deprecate-only"
  else if key = "Mixed" then some "mixed-mode"
  else none

/-- APEX_COMPILE_MAP: all -> all, package -> package. -/
def APEX_COMPILE_MAP : String → Option String := fun key =>
  if key = "all" then some "all"
  else if key = "package" then some "package"
  else none

/-- The maxRetries assignment in execute: when the wait flag (minutes)
is nil keep the constructor default DEFAULT_MAX_RETRIES, otherwise
(RETRY_MINUTES_IN_MILLIS / pollIntervalMillis) * wait.  The division
60000 / 5000 is exact, so Nat division agrees with the JS number
division performed by the source. -/
def computeMaxRetries (wait : Option Nat) : Nat :=
  match wait with
  | none => DEFAULT_MAX_RETRIES
  | some w => (RETRY_MINUTES_IN_MILLIS / DEFAULT_POLL_INTERVAL_MILLIS) * w

/-- The publishWaitRetries computation in execute:
Math.ceil((publishwait * 60 * 1000) / replicationPollIntervalMillis).
The exact real quotient is ceiled, which for natural inputs and a
positive divisor is the integer ceiling division below. -/
def computePublishWaitRetries (publishwait : Nat) : Nat :=
  (publishwait * 60 * 1000 + (REPLICATION_POLLING_INTERVAL_MILLIS - 1)) /
    REPLICATION_POLLING_INTERVAL_MILLIS

/-! ## PackageInstallCommand: data model -/

/-- One element of the PackageInstallRequest.Errors.errors array; only
its message field is read by the source. -/
structure PackageInstallError where
  message : String
  deriving Repr, DecidableEq

/-- The remote PackageInstallRequest resource as retrieved by
toolingRetrieve (and finally passed to getHumanSuccessMessage).  The
Errors field models the JS access request.Errors && request.Errors.errors:
the outer Option is the Errors object, the inner Option its errors
array. -/
structure PackageInstallRequestResource where
  Status : String
  Errors : Option (Option (List PackageInstallError))
  SubscriberPackageVersionKey : String
  Id : String
  deriving Repr, DecidableEq

/-- The PackageInstallRequest payload assembled by execute and passed to
toolingCreate.  Fields that are only conditionally assigned are modelled
with an outer Option (none = the property was never assigned); for
upgradeType and apexCompileType the inner Option is the Map.get result,
and securityType is always assigned the (possibly undefined) Map.get
result. -/
structure PackageInstallRequest where
  subscriberPackageVersionKey : String
  password : Option String
  upgradeType : Option (Option String)
  apexCompileType : Option (Option String)
  securityType : Option String
  nameConflictResolution : String
  packageInstallSource : String
  enableRss : Bool
  deriving Repr, DecidableEq

/-- The fetched SubscriberPackageVersion attributes that execute
consults. -/
structure SubscriberPackageVersion where
  package2ContainerOptions : String
  trustedSites : List String
  deriving Repr, DecidableEq

/-- Errors thrown by execute and poll, one constructor per throw site,
carrying the data interpolated into the corresponding message. -/
inductive ExecError where
  | requiredFlags (flag1 flag2 : String)
  | invalidIdOrPackage (value : String)
  | apiVersionUnsupported
  | promptUpgradeTypeDeny
  | createFailed (apvId : String)
  | installError (message : String)
  deriving Repr, DecidableEq

/-- Observable side effects of one execute invocation, in order:
alias lookup, the subscriber-package-version query (with the publish
wait budget handed to it), an interactive stdin prompt (recorded only
when actually shown, i.e. in interactive mode), a warning logged while
building the payload, the toolingCreate submission, and each
toolingRetrieve poll tick. -/
inductive Event where
  | aliasLookup (packageAlias : String)
  | spvQuery (apvId : String) (publishWaitRetries : Nat)
  | stdinPrompt (message : String)
  | warning (messageKey : String)
  | toolingCreate (request : PackageInstallRequest)
  | toolingRetrieve (id : String)
  deriving Repr, DecidableEq

/-! ## PackageInstallCommand: operations -/

/-- readInstallErrorsAsString(request): when the Errors object and its
errors array are present and non-empty, the numbered newline-joined
aggregation starting with "Installation errors: "; otherwise the
literal placeholder. -/
def readInstallErrorsAsString (request : PackageInstallRequestResource) : String :=
  match request.Errors with
  | some (some errorsArray) =>
    if errorsArray.length > 0 then
      errorsArray.enum.foldl
        (fun errorMessage p =>
          errorMessage ++ "\n" ++ toString (p.1 + 1) ++ ") " ++ p.2.message)
        "Installation errors: "
    else "<empty>"
  | _ => "<empty>"

/-- poll(context, id, retries): retrieve the PackageInstallRequest and
switch on its Status.  SUCCESS returns the resource; ERROR throws the
aggregated error string; any other status recurses with retries - 1
when retries > 0 and otherwise (timed out) returns the last-fetched
resource.  The successive toolingRetrieve results are supplied by
fetch, indexed by tick; the returned list is the trace of retrieve
calls. -/
def poll (fetch : Nat → PackageInstallRequestResource) (id : String) (tick retries : Nat) :
    Except ExecError PackageInstallRequestResource × List Event :=
  let request := fetch tick
  if request.Status = "SUCCESS" then
    (Except.ok request, [Event.toolingRetrieve id])
  else if request.Status = "ERROR" then
    (Except.error (ExecError.installError (readInstallErrorsAsString request)),
     [Event.toolingRetrieve id])
  else
    match retries with
    | Nat.succ r =>
      let rest := poll fetch id (tick + 1) r
      (rest.1, Event.toolingRetrieve id :: rest.2)
    | 0 => (Except.ok request, [Event.toolingRetrieve id])

/-- The answer normalization in _prompt: answer.toUpperCase() is
accepted when it is YES or Y. -/
def upperAccepted (answer : String) : Bool :=
  jsToUpper answer = "YES" || jsToUpper answer = "Y"

/-- _prompt(noninteractive, message): in non-interactive mode the answer
is the literal YES without consulting stdin; otherwise the injected
stdinPrompt collaborator is asked (recorded as an Event and consuming
one entry of the answer stream).  Returns (accepted, events, next
answer index).  The blank separator line logged after the answer is
presentation only and is not traced. -/
def promptStep (stdinAnswers : Nat → String) (noninteractive : Bool) (message : String)
    (promptIdx : Nat) : Bool × List Event × Nat :=
  if noninteractive then (upperAccepted "YES", [], promptIdx)
  else (upperAccepted (stdinAnswers promptIdx), [Event.stdinPrompt message], promptIdx + 1)

/-- The PackageInstallRequest payload construction in execute (lines
451-475): the version key and password are always set; upgradeType is
assigned only when the upgradetype flag differs from the default Mixed
and the container type is Unlocked, a warning being logged when it
differs but the container is not Unlocked (and symmetrically for
apexCompileType with default all); securityType is the SECURITY_TYPE_MAP
lookup of the securitytype flag; nameConflictResolution and
packageInstallSource are fixed; enableRss is the external-sites
confirmation outcome.  Returns the payload and the warnings logged. -/
def buildPackageInstallRequest (apvId : String) (installationKey : Option String)
    (upgradetype apexcompile securitytype containerOptions : String)
    (enableExternalSites : Bool) : PackageInstallRequest × List Event :=
  let upgradeTypePart : Option (Option String) × List Event :=
    if upgradetype ≠ "Mixed" then
      if containerOptions = "Unlocked" then (some (UPGRADE_TYPE_MAP upgradetype), [])
      else (none, [Event.warning "install.warningUpgradeTypeOnlyForUnlocked"])
    else (none, [])
  let apexCompilePart : Option (Option String) × List Event :=
    if apexcompile ≠ "all" then
      if containerOptions = "Unlocked" then (some (APEX_COMPILE_MAP apexcompile), [])
      else (none, [Event.warning "install.warningApexCompileOnlyForUnlocked"])
    else (none, [])
  ({ subscriberPackageVersionKey := apvId
     password := installationKey
     upgradeType := upgradeTypePart.1
     apexCompileType := apexCompilePart.1
     securityType := SECURITY_TYPE_MAP securitytype
     nameConflictResolution := "Block"
     packageInstallSource := "U"
     enableRss := enableExternalSites },
   upgradeTypePart.2 ++ apexCompilePart.2)

/-- The command-line flags consumed by execute.  id, package, wait,
installationkey and publishwait are optional; upgradetype, apexcompile
and securitytype are supplied by the external flag parser (which fills
in the documented defaults Mixed and all), and noprompt is a boolean
switch. -/
structure ContextFlags where
  id : Option String
  package : Option String
  wait : Option Nat
  installationkey : Option String
  publishwait : Option Nat
  upgradetype : String
  apexcompile : String
  securitytype : String
  noprompt : Bool

/-- The external collaborators of one execute invocation: the char of
the id flag as registered on the command, the alias lookup and id
validation of pkgUtils, the configured API version, the subscriber
package version returned by the (external) publish-wait query, the
injected stdin prompt answers, the id field of the toolingCreate
response, and the successive toolingRetrieve results. -/
structure ExecuteEnv where
  idFlagChar : String
  getPackageIdFromAlias : String → String
  isValidSubscriberPackageVersionId : String → Bool
  apiVersion : Nat
  spv : SubscriberPackageVersion
  stdinAnswers : Nat → String
  createId : Option String
  fetch : Nat → PackageInstallRequestResource

/-- The identifier resolution in execute: the id flag wins; otherwise
the package flag is used directly when it starts with the 04t
subscriber-package-version-id key prefix and is resolved through
pkgUtils.getPackageIdFromAlias otherwise (the lookup being traced).
The unreachable neither-flag case (excluded by the preceding
validation) yields the empty id. -/
def resolveApvId (env : ExecuteEnv) (flags : ContextFlags) : String × List Event :=
  match flags.id with
  | some i => (i, [])
  | none =>
    match flags.package with
    | some p =>
      if jsStartsWith p "04t" then (p, [])
      else (env.getPackageIdFromAlias p, [Event.aliasLookup p])
    | none => ("", [])

/-- The tail of execute after the upgrade-type confirmation gate: the
trusted-sites prompt, payload construction, toolingCreate submission
(failing when the response carries no id) and the final poll with the
computed maxRetries budget. -/
def executeAfterGates (env : ExecuteEnv) (flags : ContextFlags) (apvId : String)
    (installationKey : Option String) (maxRetries : Nat) (promptIdx : Nat)
    (evs : List Event) : Except ExecError PackageInstallRequestResource × List Event :=
  let rss :=
    if env.spv.trustedSites.length > 0 then
      let pr := promptStep env.stdinAnswers flags.noprompt "promptRss" promptIdx
      (pr.1, pr.2.1)
    else (false, ([] : List Event))
  let built := buildPackageInstallRequest apvId installationKey flags.upgradetype
    flags.apexcompile flags.securitytype env.spv.package2ContainerOptions rss.1
  let evs2 := evs ++ rss.2 ++ built.2 ++ [Event.toolingCreate built.1]
  match env.createId with
  | none => (Except.error (ExecError.createFailed apvId), evs2)
  | some requestId =>
    let polled := poll env.fetch requestId 0 maxRetries
    (polled.1, evs2 ++ polled.2)

/-- execute(context): flag mutual-exclusivity validation, identifier
resolution and format validation, wait-budget computations, API version
check, the subscriber-package-version query, the Delete-upgrade-type
confirmation gate, and the executeAfterGates tail. -/
def execute (env : ExecuteEnv) (flags : ContextFlags) :
    Except ExecError PackageInstallRequestResource × List Event :=
  if (flags.id.isNone && flags.package.isNone) || (flags.id.isSome && flags.package.isSome) then
    (Except.error (ExecError.requiredFlags ("--id (-" ++ env.idFlagChar ++ ")") "--package"), [])
  else
    let r := resolveApvId env flags
    if env.isValidSubscriberPackageVersionId r.1 then
      let maxRetries := computeMaxRetries flags.wait
      let installationKey := flags.installationkey
      let publishwait := flags.publishwait.getD DEFAULT_PUBLISH_WAIT_MIN
      if env.apiVersion < 36 then
        (Except.error ExecError.apiVersionUnsupported, r.2)
      else
        let evs := r.2 ++ [Event.spvQuery r.1 (computePublishWaitRetries publishwait)]
        if flags.upgradetype = "Delete" ∧ env.spv.package2ContainerOptions = "Unlocked" then
          let pr := promptStep env.stdinAnswers flags.noprompt "promptUpgradeType" 0
          if pr.1 then
            executeAfterGates env flags r.1 installationKey maxRetries pr.2.2 (evs ++ pr.2.1)
          else
            (Except.error ExecError.promptUpgradeTypeDeny, evs ++ pr.2.1)
        else
          executeAfterGates env flags r.1 installationKey maxRetries 0 evs
    else
      (Except.error (ExecError.invalidIdOrPackage r.1), r.2)

/-- getHumanSuccessMessage(result): SUCCESS is rendered through the
external message catalog with the installed subscriber package version
key, TERMINATED yields the empty string, and every other status is
rendered with the request id and the org name.  The external
messages.getMessage collaborator is passed in as a function argument. -/
def getHumanSuccessMessage (getMessage : String → List String → String → String)
    (orgName : String) (result : PackageInstallRequestResource) : String :=
  if result.Status = "SUCCESS" then
    getMessage result.Status [result.SubscriberPackageVersionKey] "package_install_report"
  else if result.Status = "TERMINATED" then ""
  else getMessage result.Status [result.Id, orgName] "package_install_report"

/-! ## Concrete fixtures used by witnesses and counterexamples -/

/-- A polled resource in ERROR state with the two error entries of the
spec's worked example. -/
def twoErrorsResource : PackageInstallRequestResource :=
  { Status := "ERROR"
    Errors := some (some [{ message := "bad field" }, { message := "missing perm" }])
    SubscriberPackageVersionKey := "04tB00000009T2PIAU"
    Id := "0Hf1F0000008bm2SAA" }

/-- A polled resource still in a non-terminal state. -/
def inProgressResource : PackageInstallRequestResource :=
  { Status := "IN_PROGRESS"
    Errors := none
    SubscriberPackageVersionKey := "04tB00000009T2PIAU"
    Id := "0Hf1F0000008bm2SAA" }

/-- A sample environment: valid 04t ids, API version 45, an Unlocked
container with no trusted sites, a stdin that always answers no, a
create call that returns an id, and a server that always reports
IN_PROGRESS. -/
def sampleEnv : ExecuteEnv :=
  { idFlagChar := "i"
    getPackageIdFromAlias := fun _ => "04tB00000009T2PIAU"
    isValidSubscriberPackageVersionId := fun s => jsStartsWith s "04t"
    apiVersion := 45
    spv := { package2ContainerOptions := "Unlocked", trustedSites := [] }
    stdinAnswers := fun _ => "no"
    createId := some "0Hf1F0000008bm2SAA"
    fetch := fun _ => inProgressResource }

/-- Flags requesting a Delete upgrade with prompting enabled. -/
def deleteFlags : ContextFlags :=
  { id := some "04tB00000009T2PIAU"
    package := none
    wait := none
    installationkey := none
    publishwait := none
    upgradetype := "Delete"
    apexcompile := "all"
    securitytype := "AllUsers"
    noprompt := false }

/-- Flags with neither identifier flag set. -/
def neitherIdFlags : ContextFlags :=
  { deleteFlags with id := none, package := none, upgradetype := "Mixed" }

/-- Flags with both identifier flags set. -/
def bothIdFlags : ContextFlags :=
  { deleteFlags with
    id := some "04tB00000009T2PIAU"
    package := some "myAlias"
    upgradetype := "Mixed" }

/-! ## Helper lemmas -/


theorem membersOf_update (e : PkgTypeEntry) (l : List String) :
    membersOf { e with members := some l } = l := rfl

theorem addMemberEntry_name (m : String) (e : PkgTypeEntry) :
    (addMemberEntry m e).name = e.name := by
  by_cases hm : m ∈ membersOf e <;> simp [addMemberEntry, hm]

theorem mem_membersOf_addMemberEntry {x m : String} {e : PkgTypeEntry}
    (h : x ∈ membersOf (addMemberEntry m e)) : x = m ∨ x ∈ membersOf e := by
  by_cases hm : m ∈ membersOf e <;>
    simp [addMemberEntry, hm, membersOf_update] at h <;> tauto

theorem mem_addMemberEntry_self (m : String) (e : PkgTypeEntry) :
    m ∈ membersOf (addMemberEntry m e) := by
  by_cases hm : m ∈ membersOf e <;> simp [addMemberEntry, hm, membersOf_update]

theorem addMemberEntry_idem (m : String) (e : PkgTypeEntry) :
    addMemberEntry m (addMemberEntry m e) = addMemberEntry m e := by
  by_cases hm : m ∈ membersOf e <;>
    simp [addMemberEntry, hm, membersOf_update]

theorem nodup_addMemberEntry {m : String} {e : PkgTypeEntry}
    (h : (membersOf e).Nodup) : (membersOf (addMemberEntry m e)).Nodup := by
  by_cases hm : m ∈ membersOf e <;>
    simp [addMemberEntry, hm, membersOf_update, List.nodup_append, h]

theorem updateFirstMatching_idem {ty : String} (m : String) (htrim : jsTrim ty = ty) :
    ∀ ts : List PkgTypeEntry,
      updateFirstMatching ty m (updateFirstMatching ty m ts) = updateFirstMatching ty m ts
  | [] => by
    simp [updateFirstMatching, addMemberEntry_name, htrim, addMemberEntry_idem]
  | e :: rest => by
    by_cases he : e.name = ty
    · simp [updateFirstMatching, he, addMemberEntry_name, addMemberEntry_idem]
    · simp [updateFirstMatching, he, updateFirstMatching_idem m htrim rest]

theorem nodup_updateFirstMatching {ty m : String} :
    ∀ ts : List PkgTypeEntry, (∀ e ∈ ts, (membersOf e).Nodup) →
      ∀ e' ∈ updateFirstMatching ty m ts, (membersOf e').Nodup
  | [], _ => by
    intro e' he'
    simp [updateFirstMatching] at he'
    subst he'
    exact nodup_addMemberEntry (by simp [membersOf])
  | e :: rest, h => by
    intro e' he'
    by_cases hn : e.name = ty
    · simp [updateFirstMatching, hn] at he'
      rcases he' with rfl | he'
      · exact nodup_addMemberEntry (h e (List.mem_cons_self e rest))
      · exact h e' (List.mem_cons_of_mem e he')
    · simp [updateFirstMatching, hn] at he'
      rcases he' with rfl | he'
      · exact h e' (List.mem_cons_self e' rest)
      · exact nodup_updateFirstMatching rest (fun x hx => h x (List.mem_cons_of_mem e hx)) e' he'

theorem mem_updateFirstMatching {ty m : String} :
    ∀ {ts : List PkgTypeEntry} {e' : PkgTypeEntry}, e' ∈ updateFirstMatching ty m ts →
      e' ∈ ts ∨ (∃ e ∈ ts, e.name = ty ∧ e' = addMemberEntry m e) ∨
      e' = addMemberEntry m { name := jsTrim ty, members := none }
  | [], e', h => by
    simp [updateFirstMatching] at h
    tauto
  | e :: rest, e', h => by
    by_cases hn : e.name = ty
    · simp only [updateFirstMatching, if_pos hn, List.mem_cons] at h
      rcases h with rfl | h
      · exact Or.inr (Or.inl ⟨e, List.mem_cons_self e rest, hn, rfl⟩)
      · exact Or.inl (List.mem_cons_of_mem e h)
    · simp only [updateFirstMatching, if_neg hn, List.mem_cons] at h
      rcases h with rfl | h
      · exact Or.inl (List.mem_cons_self e' rest)
      · rcases mem_updateFirstMatching h with h1 | ⟨e2, he2, hn2, h3⟩ | h1
        · exact Or.inl (List.mem_cons_of_mem e h1)
        · exact Or.inr (Or.inl ⟨e2, List.mem_cons_of_mem e he2, hn2, h3⟩)
        · exact Or.inr (Or.inr h1)

theorem replaceBackslash_not_mem (s : String) : '\\' ∉ (replaceBackslashes s).data := by
  intro h
  rw [show (replaceBackslashes s).data = s.data.map (fun c => if c = '\\' then '/' else c)
      from rfl] at h
  rcases List.mem_map.mp h with ⟨a, _, hfa⟩
  by_cases h2 : a = '\\' <;> simp [h2] at hfa

theorem normalizeMemberName_no_backslash {sep : Char} {ty fullName : String}
    (h : ty ≠ "Layout") : '\\' ∉ (normalizeMemberName sep ty fullName).data := by
  simp only [normalizeMemberName, ne_eq, if_pos h]
  exact replaceBackslash_not_mem _

theorem normalizeMemberName_bundle {sep : Char} {ty fullName : String}
    (h : ty ∈ bundleMetadataTypes) :
    normalizeMemberName sep ty fullName =
      replaceBackslashes (firstPathSegment sep (jsTrim fullName)) := by
  simp [bundleMetadataTypes] at h
  rcases h with rfl | rfl | rfl <;> rfl

theorem computeMaxRetries_eq (w : Nat) : computeMaxRetries (some w) = 12 * w := by
  simp [computeMaxRetries, RETRY_MINUTES_IN_MILLIS, DEFAULT_POLL_INTERVAL_MILLIS]

theorem computePublishWaitRetries_eq (w : Nat) : computePublishWaitRetries w = 6 * w := by
  simp only [computePublishWaitRetries, REPLICATION_POLLING_INTERVAL_MILLIS]
  omega

/-! ## Claims -/

/-- C1: for every non-negative wait value w in minutes, the retry
budget of the post-submission install poll (computeMaxRetries, interval
DEFAULT_POLL_INTERVAL_MILLIS = 5000 ms) and of the pre-submission
publish wait (computePublishWaitRetries, interval
REPLICATION_POLLING_INTERVAL_MILLIS = 10000 ms) both equal
ceil(w * 60000 / interval), and w = 0 yields budget 0. -/
theorem retry_budget_is_ceil_of_wait (w : Nat) :
    ((computeMaxRetries (some w) : Int) =
      ⌈((w * 60000 : Nat) : ℚ) / ((DEFAULT_POLL_INTERVAL_MILLIS : Nat) : ℚ)⌉)
    ∧ ((computePublishWaitRetries w : Int) =
      ⌈((w * 60000 : Nat) : ℚ) / ((REPLICATION_POLLING_INTERVAL_MILLIS : Nat) : ℚ)⌉)
    ∧ computeMaxRetries (some 0) = 0 ∧ computePublishWaitRetries 0 = 0 := by
  have h5 : ((w * 60000 : Nat) : ℚ) / ((DEFAULT_POLL_INTERVAL_MILLIS : Nat) : ℚ) =
      ((12 * w : Nat) : ℚ) := by
    simp [DEFAULT_POLL_INTERVAL_MILLIS]
    ring
  have h10 : ((w * 60000 : Nat) : ℚ) / ((REPLICATION_POLLING_INTERVAL_MILLIS : Nat) : ℚ) =
      ((6 * w : Nat) : ℚ) := by
    simp [REPLICATION_POLLING_INTERVAL_MILLIS]
    ring
  refine ⟨?_, ?_, ?_, ?_⟩
  · rw [h5, Int.ceil_natCast, computeMaxRetries_eq]
  · rw [h10, Int.ceil_natCast, computePublishWaitRetries_eq]
  · rw [computeMaxRetries_eq]
  · rw [computePublishWaitRetries_eq]

/-- C2: a poll invocation whose retries budget is 0 and whose retrieved
resource has a non-terminal status (neither SUCCESS nor ERROR) returns
that last-fetched resource as-is, raising no error. -/
theorem poll_timeout_returns_resource (fetch : Nat → PackageInstallRequestResource)
    (id : String) (tick : Nat)
    (h1 : (fetch tick).Status ≠ "SUCCESS") (h2 : (fetch tick).Status ≠ "ERROR") :
    (poll fetch id tick 0).1 = Except.ok (fetch tick) := by
  unfold poll
  simp [h1, h2]

/-- Witness for C2 at a concrete IN_PROGRESS resource. -/
theorem poll_timeout_returns_resource_witness :
    (poll (fun _ => inProgressResource) "0Hf1F0000008bm2SAA" 0 0).1 =
      Except.ok inProgressResource :=
  poll_timeout_returns_resource (fun _ => inProgressResource) "0Hf1F0000008bm2SAA" 0
    (by decide) (by decide)

/-- C3: a poll tick whose resource has status ERROR raises an error
whose message is the numbered newline-joined aggregation of the error
entries; for the entries bad field and missing perm the message is
exactly the quoted string, and with no structured entries (missing
Errors object, missing errors array, or empty array) the message is the
literal placeholder. -/
theorem poll_error_aggregates_messages :
    (∀ (fetch : Nat → PackageInstallRequestResource) (id : String) (tick retries : Nat),
        (fetch tick).Status = "ERROR" →
        (poll fetch id tick retries).1 =
          Except.error (ExecError.installError (readInstallErrorsAsString (fetch tick))))
    ∧ readInstallErrorsAsString twoErrorsResource =
        "Installation errors: \n1) bad field\n2) missing perm"
    ∧ (∀ r : PackageInstallRequestResource, r.Errors = none →
        readInstallErrorsAsString r = "<empty>")
    ∧ (∀ r : PackageInstallRequestResource, r.Errors = some none →
        readInstallErrorsAsString r = "<empty>")
    ∧ (∀ r : PackageInstallRequestResource, r.Errors = some (some []) →
        readInstallErrorsAsString r = "<empty>") := by
  refine ⟨?_, by rfl, ?_, ?_, ?_⟩
  · intro fetch id tick retries h
    unfold poll
    simp [h]
  · intro r h
    unfold readInstallErrorsAsString
    rw [h]
  · intro r h
    unfold readInstallErrorsAsString
    rw [h]
  · intro r h
    unfold readInstallErrorsAsString
    rw [h]
    simp

/-- Witness for C3 at the concrete two-entry ERROR resource. -/
theorem poll_error_aggregates_messages_witness :
    (poll (fun _ => twoErrorsResource) "0Hf1F0000008bm2SAA" 0 3).1 =
      Except.error (ExecError.installError
        "Installation errors: \n1) bad field\n2) missing perm") :=
  poll_error_aggregates_messages.1 (fun _ => twoErrorsResource) "0Hf1F0000008bm2SAA" 0 3 rfl

/-- C7: the payload's securityType is always the SECURITY_TYPE_MAP
lookup of the securitytype flag, which maps AllUsers to full and
AdminsOnly to none and leaves every other value unmapped (the payload
field stays undefined). -/
theorem securityType_mapping :
    (∀ (apvId : String) (key : Option String) (ut ac sec co : String) (rss : Bool),
        (buildPackageInstallRequest apvId key ut ac sec co rss).1.securityType =
          SECURITY_TYPE_MAP sec)
    ∧ SECURITY_TYPE_MAP "AllUsers" = some "full"
    ∧ SECURITY_TYPE_MAP "AdminsOnly" = some "none"
    ∧ (∀ s : String, s ≠ "AllUsers" → s ≠ "AdminsOnly" → SECURITY_TYPE_MAP s = none) := by
  refine ⟨fun _ _ _ _ _ _ _ => rfl, rfl, rfl, ?_⟩
  intro s h1 h2
  simp [SECURITY_TYPE_MAP, h1, h2]

/-- Witness for C7: an unmapped security type yields an undefined
payload field. -/
theorem securityType_mapping_witness : SECURITY_TYPE_MAP "Bogus" = none :=
  securityType_mapping.2.2.2 "Bogus" (by decide) (by decide)

/-- C8: the result-reporting function getHumanSuccessMessage formats
SUCCESS with the installed subscriber package version key, maps the
TERMINATED sentinel to the empty string, and formats any other status
with the install-request id and the org name.  Purity is captured by
the embedding: it is a function of its arguments with no event trace. -/
theorem human_success_message_spec :
    ∀ (getMessage : String → List String → String → String) (orgName : String)
      (result : PackageInstallRequestResource),
      (result.Status = "SUCCESS" →
        getHumanSuccessMessage getMessage orgName result =
          getMessage "SUCCESS" [result.SubscriberPackageVersionKey] "package_install_report")
      ∧ (result.Status = "TERMINATED" →
        getHumanSuccessMessage getMessage orgName result = "")
      ∧ (result.Status ≠ "SUCCESS" → result.Status ≠ "TERMINATED" →
        getHumanSuccessMessage getMessage orgName result =
          getMessage result.Status [result.Id, orgName] "package_install_report") := by
  intro getMessage orgName result
  refine ⟨?_, ?_, ?_⟩
  · intro h
    unfold getHumanSuccessMessage
    rw [h]
    simp
  · intro h
    unfold getHumanSuccessMessage
    rw [h]
    simp
  · intro h1 h2
    unfold getHumanSuccessMessage
    simp [h1, h2]

/-- Witness for C8 at a concrete ERROR resource with a message catalog
that returns its key and arguments. -/
theorem human_success_message_spec_witness :
    getHumanSuccessMessage (fun k args bundle => String.intercalate "|" (k :: args ++ [bundle]))
        "myOrg" twoErrorsResource =
      "ERROR|0Hf1F0000008bm2SAA|myOrg|package_install_report" :=
  ((human_success_message_spec
      (fun k args bundle => String.intercalate "|" (k :: args ++ [bundle]))
      "myOrg" twoErrorsResource).2.2 (by decide) (by decide)).trans (by rfl)

/-- C4 counterexample: the claim that in every case where a conditional
field is omitted a warning is also emitted is false: with the default
upgradetype Mixed (here against an Unlocked container) the field is
omitted and no warning is logged. -/
theorem conditional_fields_counterexample :
    ¬ (∀ (apvId : String) (key : Option String) (ut ac sec co : String) (rss : Bool),
        ¬ (ut ≠ "Mixed" ∧ co = "Unlocked") →
        (buildPackageInstallRequest apvId key ut ac sec co rss).1.upgradeType = none ∧
        (buildPackageInstallRequest apvId key ut ac sec co rss).2 ≠ []) := by
  intro h
  exact (h "04tB00000009T2PIAU" none "Mixed" "all" "AllUsers" "Unlocked" false (by simp)).2 rfl

/-- C4 amended: upgradeType (resp. apexCompileType) is present in the
payload iff the requested value differs from its default Mixed (resp.
all) and the container type is Unlocked; the corresponding warning is
emitted iff the value differs from the default and the container type
is NOT Unlocked; hence a default-valued flag omits the field without
any warning. -/
theorem conditional_fields_amended
    (apvId : String) (key : Option String) (ut ac sec co : String) (rss : Bool) :
    ((buildPackageInstallRequest apvId key ut ac sec co rss).1.upgradeType.isSome ↔
      (ut ≠ "Mixed" ∧ co = "Unlocked"))
    ∧ ((buildPackageInstallRequest apvId key ut ac sec co rss).1.apexCompileType.isSome ↔
      (ac ≠ "all" ∧ co = "Unlocked"))
    ∧ (Event.warning "install.warningUpgradeTypeOnlyForUnlocked" ∈
        (buildPackageInstallRequest apvId key ut ac sec co rss).2 ↔
      (ut ≠ "Mixed" ∧ co ≠ "Unlocked"))
    ∧ (Event.warning "install.warningApexCompileOnlyForUnlocked" ∈
        (buildPackageInstallRequest apvId key ut ac sec co rss).2 ↔
      (ac ≠ "all" ∧ co ≠ "Unlocked")) := by
  by_cases h1 : ut = "Mixed" <;> by_cases h2 : ac = "all" <;>
    by_cases h3 : co = "Unlocked" <;>
    simp [buildPackageInstallRequest, h1, h2, h3]

/-- Witness for C4 amended: a non-default upgrade type against a
non-Unlocked container logs the warning. -/
theorem conditional_fields_amended_witness :
    Event.warning "install.warningUpgradeTypeOnlyForUnlocked" ∈
      (buildPackageInstallRequest "04tB00000009T2PIAU" none "Delete" "all" "AllUsers"
        "Managed" false).2 :=
  (conditional_fields_amended "04tB00000009T2PIAU" none "Delete" "all" "AllUsers"
    "Managed" false).2.2.1.mpr (by decide)

/-- C6: when both identifier flags are set, or neither is, execute
raises the validation error naming the two flags, with an empty event
trace: no alias lookup, no remote query, no prompt, no create call. -/
theorem exclusive_id_flags (env : ExecuteEnv) (flags : ContextFlags)
    (h : (flags.id = none ∧ flags.package = none) ∨
         (∃ a b, flags.id = some a ∧ flags.package = some b)) :
    execute env flags =
      (Except.error (ExecError.requiredFlags ("--id (-" ++ env.idFlagChar ++ ")") "--package"),
       []) := by
  unfold execute
  rcases h with ⟨h1, h2⟩ | ⟨a, b, h1, h2⟩ <;> simp [h1, h2]

/-- Witness for C6 at the concrete neither-flag input. -/
theorem exclusive_id_flags_witness :
    execute sampleEnv neitherIdFlags =
      (Except.error (ExecError.requiredFlags "--id (-i)" "--package"), []) :=
  exclusive_id_flags sampleEnv neitherIdFlags (Or.inl ⟨rfl, rfl⟩)

/-- C5: with an Unlocked container and upgradetype Delete, in
interactive mode, a declined confirmation prompt makes execute raise
the prompt-denied error, and the toolingCreate call for the install
request never appears in the trace. -/
theorem delete_prompt_denied_aborts (env : ExecuteEnv) (flags : ContextFlags) (v : String)
    (hid : flags.id = some v) (hpk : flags.package = none)
    (hval : env.isValidSubscriberPackageVersionId v = true)
    (hapi : 36 ≤ env.apiVersion)
    (hup : flags.upgradetype = "Delete")
    (hco : env.spv.package2ContainerOptions = "Unlocked")
    (hnp : flags.noprompt = false)
    (hans : upperAccepted (env.stdinAnswers 0) = false) :
    (execute env flags).1 = Except.error ExecError.promptUpgradeTypeDeny
    ∧ ∀ p : PackageInstallRequest, Event.toolingCreate p ∉ (execute env flags).2 := by
  have hrun : execute env flags =
      (Except.error ExecError.promptUpgradeTypeDeny,
       [Event.spvQuery v (computePublishWaitRetries (flags.publishwait.getD DEFAULT_PUBLISH_WAIT_MIN)),
        Event.stdinPrompt "promptUpgradeType"]) := by
    unfold execute resolveApvId promptStep
    simp [hid, hpk, hval, hup, hco, hnp, hans, Nat.not_lt.mpr hapi]
  rw [hrun]
  exact ⟨rfl, by intro p; simp⟩

/-- Witness for C5 at the concrete fixtures: stdin answers no. -/
theorem delete_prompt_denied_aborts_witness :
    (execute sampleEnv deleteFlags).1 = Except.error ExecError.promptUpgradeTypeDeny
    ∧ ∀ p : PackageInstallRequest,
        Event.toolingCreate p ∉ (execute sampleEnv deleteFlags).2 :=
  delete_prompt_denied_aborts sampleEnv deleteFlags "04tB00000009T2PIAU"
    rfl rfl (by decide) (by decide) rfl rfl rfl (by decide)

/-- C9 counterexample: addMember is not idempotent for every valid
(fullName, type) pair: a type name carrying surrounding whitespace (here
with a trailing blank, which passes the non-empty-after-trim validation)
is looked up by its raw name but stored trimmed, so a second identical
add pushes a duplicate type entry and changes the types structure. -/
theorem addMember_idempotence_counterexample :
    addMember '/' [] "Foo" "Apex " =
      Except.ok [{ name := "Apex", members := some ["Foo"] }]
    ∧ addMember '/' [{ name := "Apex", members := some ["Foo"] }] "Foo" "Apex " =
      Except.ok [{ name := "Apex", members := some ["Foo"] },
                 { name := "Apex", members := some ["Foo"] }]
    ∧ ([{ name := "Apex", members := some ["Foo"] },
        { name := "Apex", members := some ["Foo"] }] : List PkgTypeEntry) ≠
        [{ name := "Apex", members := some ["Foo"] }] :=
  ⟨by rfl, by rfl, by decide⟩

/-- C9 amended: for every package state and every successful addMember
call, (a) whenever the type name equals its own trimmed form, adding the
same (fullName, type) pair a second time leaves the types structure
unchanged, and (b) unconditionally, addMember preserves
duplicate-freedom of every type's members list (duplicates being
compared after trimming, bundle truncation and slash normalization). -/
theorem addMember_idempotent_for_trimmed_types (sep : Char) (ts : List PkgTypeEntry)
    (f t : String) (ts1 : List PkgTypeEntry)
    (hadd : addMember sep ts f t = Except.ok ts1) :
    (jsTrim t = t → addMember sep ts1 f t = Except.ok ts1)
    ∧ ((∀ e ∈ ts, (membersOf e).Nodup) → ∀ e ∈ ts1, (membersOf e).Nodup) := by
  unfold addMember at hadd ⊢
  split_ifs at hadd with h1 h2
  injection hadd with h3
  subst h3
  rw [if_neg h1, if_neg h2]
  exact ⟨fun htrim => congrArg Except.ok (updateFirstMatching_idem _ htrim ts),
         fun h => nodup_updateFirstMatching ts h⟩

/-- Witness for C9 amended at a concrete trimmed type: the second add
is a no-op and duplicate-freedom is preserved. -/
theorem addMember_idempotent_witness :
    addMember '/' [{ name := "ApexClass", members := some ["Foo"] }] "Foo" "ApexClass" =
      Except.ok [{ name := "ApexClass", members := some ["Foo"] }]
    ∧ ∀ e ∈ [({ name := "ApexClass", members := some ["Foo"] } : PkgTypeEntry)],
        (membersOf e).Nodup :=
  ⟨(addMember_idempotent_for_trimmed_types '/' [] "Foo" "ApexClass"
      [{ name := "ApexClass", members := some ["Foo"] }] rfl).1 (by rfl),
   (addMember_idempotent_for_trimmed_types '/' [] "Foo" "ApexClass"
      [{ name := "ApexClass", members := some ["Foo"] }] rfl).2
     (fun e he => absurd he (List.not_mem_nil e))⟩

/-- C10: addMember preserves the invariant that stored members of every
type other than Layout are backslash-free, and for the three bundle
types every member of the resulting state is either an existing member
or the slash-normalized first path segment of the trimmed fullName. -/
theorem addMember_backslash_invariant (sep : Char) (ts : List PkgTypeEntry)
    (f t : String) (ts1 : List PkgTypeEntry)
    (hadd : addMember sep ts f t = Except.ok ts1) :
    (noBackslashes ts → noBackslashes ts1)
    ∧ (t ∈ bundleMetadataTypes →
        ∀ e' ∈ ts1, ∀ m ∈ membersOf e',
          (∃ e ∈ ts, m ∈ membersOf e) ∨
          m = replaceBackslashes (firstPathSegment sep (jsTrim f))) := by
  unfold addMember at hadd
  split_ifs at hadd with h1 h2
  injection hadd with h3
  subst h3
  constructor
  · intro hInv e' he' hnl m' hm'
    rcases mem_updateFirstMatching he' with hin | ⟨e, hets, hname, rfl⟩ | rfl
    · exact hInv e' hin hnl m' hm'
    · rw [addMemberEntry_name] at hnl
      rcases mem_membersOf_addMemberEntry hm' with rfl | hmem
      · have hne : t ≠ "Layout" := by rw [hname] at hnl; exact hnl
        exact normalizeMemberName_no_backslash hne
      · exact hInv e hets hnl m' hmem
    · rw [addMemberEntry_name] at hnl
      rcases mem_membersOf_addMemberEntry hm' with rfl | hmem
      · have hne : t ≠ "Layout" := by
          intro ht
          subst ht
          exact hnl (by rfl)
        exact normalizeMemberName_no_backslash hne
      · simp [membersOf] at hmem
  · intro hb e' he' m' hm'
    rcases mem_updateFirstMatching he' with hin | ⟨e, hets, hname, rfl⟩ | rfl
    · exact Or.inl ⟨e', hin, hm'⟩
    · rcases mem_membersOf_addMemberEntry hm' with rfl | hmem
      · exact Or.inr (normalizeMemberName_bundle hb)
      · exact Or.inl ⟨e, hets, hmem⟩
    · rcases mem_membersOf_addMemberEntry hm' with rfl | hmem
      · exact Or.inr (normalizeMemberName_bundle hb)
      · simp [membersOf] at hmem

/-- Witness for C10 at a concrete bundle insertion into the empty
state. -/
theorem addMember_backslash_invariant_witness :
    noBackslashes [{ name := "AuraDefinitionBundle", members := some ["a/b"] }] :=
  (addMember_backslash_invariant '/' [] "a\\b" "AuraDefinitionBundle"
      [{ name := "AuraDefinitionBundle", members := some ["a/b"] }] rfl).1
    (fun e he => absurd he (List.not_mem_nil e))

/-- Witness for C1 at the concrete wait value 0. -/
theorem retry_budget_is_ceil_of_wait_witness :
    computeMaxRetries (some 0) = 0 ∧ computePublishWaitRetries 0 = 0 :=
  ⟨(retry_budget_is_ceil_of_wait 0).2.2.1, (retry_budget_is_ceil_of_wait 0).2.2.2⟩
